import Mathlib

/-!
Verification development for the pos-pal-pro point-of-sale application.

The definitions below are shallow embeddings of the application's SQL
functions/triggers (supabase migrations) and TypeScript screen logic.
Money and SQL numeric values are modelled in ℚ; SQL INTEGER columns are
modelled as Int; machine timestamps are abstract Nat tick values.
-/

namespace PosPal

/-! ## Data model and operations -/

/-! ### Inventory and low-stock alerts (schema: inventory, low_stock_alerts) -/

/-- Alert levels permitted by the low_stock_alerts CHECK constraint. -/
inductive AlertLevel
  | low
  | critical
  | out_of_stock
deriving DecidableEq, Repr

/-- One row of public.low_stock_alerts (the columns the trigger logic reads). -/
structure LowStockAlert where
  inventory_id : Nat
  alert_level : AlertLevel
  is_acknowledged : Bool
deriving DecidableEq, Repr

/-- One row of public.inventory (the columns the trigger logic reads). -/
structure InventoryRow where
  id : Nat
  current_stock : Int
  min_stock_level : Int
deriving DecidableEq, Repr

/-- The rows deleted by the trigger's DELETE statement, which are exactly the
rows counted as "active" for an item: inventory_id matches and
is_acknowledged = false. -/
def isActiveFor (invId : Nat) (a : LowStockAlert) : Bool :=
  a.inventory_id == invId && a.is_acknowledged == false

/-- public.check_low_stock(): delete unacknowledged alerts for the item, then
insert one alert chosen by comparing NEW.current_stock against
NEW.min_stock_level and NEW.min_stock_level * 0.5 (SQL numeric arithmetic,
exact — modelled in ℚ). -/
def check_low_stock (invId : Nat) (stock minLevel : Int)
    (alerts : List LowStockAlert) : List LowStockAlert :=
  let kept := alerts.filter (fun a => !(isActiveFor invId a))
  if stock = 0 then
    kept ++ [⟨invId, .out_of_stock, false⟩]
  else if stock ≤ minLevel then
    kept ++ [⟨invId,
      if (stock : ℚ) ≤ (minLevel : ℚ) * 0.5 then .critical else .low, false⟩]
  else
    kept

/-- Trigger inventory_low_stock_check: AFTER UPDATE ... WHEN
(OLD.current_stock IS DISTINCT FROM NEW.current_stock) EXECUTE
check_low_stock. Both stock columns are NOT NULL, so IS DISTINCT FROM is
plain inequality. -/
def inventory_low_stock_check (old new : InventoryRow)
    (alerts : List LowStockAlert) : List LowStockAlert :=
  if old.current_stock ≠ new.current_stock then
    check_low_stock new.id new.current_stock new.min_stock_level alerts
  else
    alerts

/-- Modelled from the spec: the threshold table of §4.2/§8, the claimed pure
function from (new stock, min_stock_level) to the level of the single
unacknowledged alert (none = no alert). Written from the spec's words, to be
compared with the source-derived trigger. -/
def specAlertLevel (stock minLevel : Int) : Option AlertLevel :=
  if stock = 0 then some .out_of_stock
  else if 0 < stock ∧ (stock : ℚ) ≤ (minLevel : ℚ) * 0.5 then some .critical
  else if (minLevel : ℚ) * 0.5 < (stock : ℚ) ∧ stock ≤ minLevel then some .low
  else none

/-! ### Orders, order_actions and the status-transition operation -/

/-- The values admitted by the orders.status CHECK constraint of the initial
schema; no later migration alters or drops this constraint. -/
def allowedStatuses : List String :=
  ["pending", "preparing", "ready", "completed", "cancelled"]

/-- CHECK (status IN (...)) as a predicate. -/
def statusAllowed (s : String) : Bool := allowedStatuses.contains s

/-- One row of public.orders (the columns the transition logic touches). -/
structure Order where
  id : Nat
  status : String
  updated_at : Nat
deriving DecidableEq, Repr

/-- One row of public.order_actions, as inserted by performOrderAction. -/
structure OrderAction where
  order_id : Nat
  action_type : String
  action_by : Nat
  amount : Option ℚ
  reason : Option String
  notes : Option String
deriving DecidableEq, Repr

/-- One row of public.activity_logs (advisory audit trail; contents are out
of the claims' scope beyond existence). -/
structure ActivityLogRow where
  user_id : Nat
  action : String
  new_status : String
deriving DecidableEq, Repr

/-- The slice of the store the transition operation reads and writes. -/
structure Db where
  orders : List Order
  order_actions : List OrderAction
  activity_logs : List ActivityLogRow
deriving DecidableEq, Repr

/-- Per-row effect of UPDATE orders SET status = ... WHERE id = orderId; the
update_updated_at_column trigger refreshes updated_at on every write. -/
def updStatus (orderId : Nat) (newStatus : String) (now : Nat)
    (o : Order) : Order :=
  if o.id == orderId then { o with status := newStatus, updated_at := now }
  else o

/-- The store's UPDATE orders SET status = ..., updated_at = now() WHERE
id = orderId: the CHECK constraint is evaluated on every updated row, so the
statement errors (none) exactly when some row matches and the new status is
outside the constraint; otherwise the matching rows are rewritten. -/
def dbUpdateOrderStatus (db : Db) (orderId : Nat) (newStatus : String)
    (now : Nat) : Option Db :=
  if db.orders.any (fun o => o.id == orderId) && !(statusAllowed newStatus) then
    none
  else
    some { db with orders := db.orders.map (updStatus orderId newStatus now) }

/-- Inputs the screen reads from its dialog state when recording an action. -/
structure ActionCtx where
  userId : Nat
  actionAmount : Option ℚ
  actionReason : Option String
  actionNotes : Option String

/-- Injected store failures for the operation's three writes (a store error
on the corresponding statement). -/
structure StoreFaults where
  orderUpdateFails : Bool
  actionInsertFails : Bool
  activityInsertFails : Bool

/-- performOrderAction (order-management screen): update the order's status;
on error throw to the catch block (state unchanged beyond what already
committed, failure reported). Then insert one order_actions row; on error
throw (status stays changed, failure reported). Then append the activity log
inside its own try/catch, whose failure is swallowed; report success. -/
def performOrderAction (db : Db) (ctx : ActionCtx) (orderId : Nat)
    (newStatus actionType : String) (now : Nat) (f : StoreFaults) :
    Db × Bool :=
  match
    (if f.orderUpdateFails then none
     else dbUpdateOrderStatus db orderId newStatus now) with
  | none => (db, false)
  | some db1 =>
    if f.actionInsertFails then (db1, false)
    else
      let db2 := { db1 with
        order_actions := db1.order_actions ++
          [⟨orderId, actionType, ctx.userId, ctx.actionAmount,
            ctx.actionReason, ctx.actionNotes⟩] }
      let db3 :=
        if f.activityInsertFails then db2
        else { db2 with
          activity_logs := db2.activity_logs ++
            [⟨ctx.userId, actionType, newStatus⟩] }
      (db3, true)

/-- handleQuickAction of the richer (Variant B) order-management screen: the
approve button requests status approved; the quick buttons map the other
actions to their target statuses; any other action only opens the dialog
(none). -/
def handleQuickAction (db : Db) (ctx : ActionCtx) (o : Order)
    (action : String) (now : Nat) (f : StoreFaults) : Option (Db × Bool) :=
  match action with
  | "approve" => some (performOrderAction db ctx o.id "approved" "approve" now f)
  | "preparing" => some (performOrderAction db ctx o.id "preparing" "preparing" now f)
  | "ready" => some (performOrderAction db ctx o.id "ready" "ready" now f)
  | "complete" => some (performOrderAction db ctx o.id "completed" "complete" now f)
  | _ => none

/-- performVoidOrder (OrderDetailsModal): UPDATE orders SET status = 'void';
an error is caught and reported as failure with no other effect. -/
def performVoidOrder (db : Db) (orderId : Nat) (now : Nat) : Db × Bool :=
  match dbUpdateOrderStatus db orderId "void" now with
  | none => (db, false)
  | some db1 => (db1, true)

/-- Outcome of the client-side void entry points: either performVoidOrder ran
with the given result, or the admin-password dialog was shown instead, or the
password challenge rejected the input and nothing ran. -/
inductive VoidOutcome
  | performed (result : Db × Bool)
  | dialogShown
  | rejected
deriving DecidableEq, Repr

/-- handleVoidOrder: an admin voids immediately; anyone else only gets the
password dialog. -/
def handleVoidOrder (userRole : String) (db : Db) (orderId : Nat)
    (now : Nat) : VoidOutcome :=
  if userRole = "admin" then .performed (performVoidOrder db orderId now)
  else .dialogShown

/-- handleAdminPasswordSubmit: an empty password is refused; the hardcoded
secret admin123 releases the void; anything else is refused. -/
def handleAdminPasswordSubmit (pw : String) (db : Db) (orderId : Nat)
    (now : Nat) : VoidOutcome :=
  if pw = "" then .rejected
  else if pw = "admin123" then .performed (performVoidOrder db orderId now)
  else .rejected

/-- A one-order store used to instantiate the transition theorems. -/
def exDb : Db := ⟨[⟨1, "pending", 0⟩], [], []⟩

/-- A staff member's dialog state with no amount, reason or notes. -/
def exCtx : ActionCtx := ⟨9, none, none, none⟩

/-! ### Order-number generation (generate_order_number, order_sequence) -/

/-- Decimal digit characters of a natural number, most significant first;
structurally recursive on a fuel bound so that concrete values reduce. -/
def natCharsAux : ℕ → ℕ → List Char
  | 0, _ => []
  | fuel + 1, n =>
    if n < 10 then [Nat.digitChar n]
    else natCharsAux fuel (n / 10) ++ [Nat.digitChar (n % 10)]

/-- NEXTVAL('order_sequence')::TEXT — the decimal text of the sequence
value. -/
def natChars (n : ℕ) : List Char := natCharsAux (n + 1) n

/-- Postgres LPAD(s, len, fill): extend s on the left to length len,
truncating s on the right when it is already longer than len. -/
def lpad (l : List Char) (len : ℕ) (c : Char) : List Char :=
  if len ≤ l.length then l.take len
  else List.replicate (len - l.length) c ++ l

/-- public.generate_order_number(): 'ORD-' || TO_CHAR(NOW(), 'YYYYMMDD') ||
'-' || LPAD(NEXTVAL('order_sequence')::TEXT, 4, '0'); the clock's date part
is passed in as characters, the sequence value as a number. -/
def generate_order_number (date : List Char) (seq : ℕ) : String :=
  String.mk ("ORD-".toList ++ date ++ "-".toList ++ lpad (natChars seq) 4 '0')

/-- Reading a digit string back as a number (how a consumer would sort or
compare the 4-character sequence field). -/
def digitsVal (l : List Char) : ℕ :=
  l.foldl (fun acc c => 10 * acc + (c.toNat - '0'.toNat)) 0

/-! ### Checkout flows (POSSystem, public CustomerMenu, part_002 customer
ordering screen) -/

/-- A cart entry as the checkout screens hold it: the menu item's id and
price at the moment it was added, the chosen quantity, and optional
instructions. -/
structure CartItem where
  id : Nat
  price : ℚ
  quantity : ℕ
  special_instructions : Option String
deriving DecidableEq, Repr

/-- The orders row a checkout flow inserts (the money and status columns the
claims concern; tax_amount defaults to 0 when a flow omits it). -/
structure OrderInsert where
  total_amount : ℚ
  tax_amount : ℚ
  status : String
deriving DecidableEq, Repr

/-- An order_items row as inserted at checkout. -/
structure OrderItemInsert where
  order_id : Nat
  menu_item_id : Nat
  quantity : ℕ
  unit_price : ℚ
  total_price : ℚ
  special_instructions : Option String
deriving DecidableEq, Repr

namespace POSSystem

/-- cart.reduce((total, item) => total + item.price * item.quantity, 0). -/
def calculateSubtotal (cart : List CartItem) : ℚ :=
  cart.foldl (fun total item => total + item.price * (item.quantity : ℚ)) 0

/-- subtotal * 0.10 — the POS screen's 10% tax. -/
def calculateTax (subtotal : ℚ) : ℚ := subtotal * 0.10

/-- subtotal plus tax. -/
def calculateTotal (cart : List CartItem) : ℚ :=
  calculateSubtotal cart + calculateTax (calculateSubtotal cart)

/-- The orders row processOrder inserts: total with tax, tax amount, status
completed. -/
def processOrderRow (cart : List CartItem) : OrderInsert :=
  ⟨calculateTotal cart, calculateTax (calculateSubtotal cart), "completed"⟩

/-- The order_items rows processOrder inserts. -/
def processOrderItems (orderId : Nat) (cart : List CartItem) :
    List OrderItemInsert :=
  cart.map (fun item =>
    ⟨orderId, item.id, item.quantity, item.price,
      item.price * (item.quantity : ℚ), item.special_instructions⟩)

end POSSystem

namespace CustomerMenu

/-- cart.reduce((total, item) => total + item.price * item.quantity, 0) —
this public screen computes no tax. -/
def calculateTotal (cart : List CartItem) : ℚ :=
  cart.foldl (fun total item => total + item.price * (item.quantity : ℚ)) 0

/-- The orders row submitOrder inserts: total_amount is the bare subtotal, no
tax_amount is supplied (column default 0), status pending. -/
def submitOrderRow (cart : List CartItem) : OrderInsert :=
  ⟨calculateTotal cart, 0, "pending"⟩

/-- The order_items rows submitOrder inserts; special_instructions is always
null on this screen. -/
def submitOrderItems (orderId : Nat) (cart : List CartItem) :
    List OrderItemInsert :=
  cart.map (fun item =>
    ⟨orderId, item.id, item.quantity, item.price,
      item.price * (item.quantity : ℚ), none⟩)

end CustomerMenu

namespace CustomerOrder

/-- cart.reduce((total, item) => total + item.price * item.quantity, 0). -/
def calculateTotal (cart : List CartItem) : ℚ :=
  cart.foldl (fun total item => total + item.price * (item.quantity : ℚ)) 0

/-- subtotal * 0.12 — this screen's 12% VAT. -/
def calculateTax (subtotal : ℚ) : ℚ := subtotal * 0.12

/-- The orders row this screen's submitOrder inserts: subtotal plus 12% tax,
the tax amount, status pending. -/
def submitOrderRow (cart : List CartItem) : OrderInsert :=
  ⟨calculateTotal cart + calculateTax (calculateTotal cart),
    calculateTax (calculateTotal cart), "pending"⟩

/-- The order_items rows this screen's submitOrder inserts. -/
def submitOrderItems (orderId : Nat) (cart : List CartItem) :
    List OrderItemInsert :=
  cart.map (fun item =>
    ⟨orderId, item.id, item.quantity, item.price,
      item.price * (item.quantity : ℚ), item.special_instructions⟩)

end CustomerOrder

/-- The spec scenario's cart: qty 2 at unit price 100 and qty 1 at unit
price 50. -/
def scenarioCart : List CartItem := [⟨11, 100, 2, none⟩, ⟨12, 50, 1, none⟩]

/-- One row of public.menu_items (the column the price edit touches). -/
structure MenuItemRow where
  id : Nat
  price : ℚ
deriving DecidableEq, Repr

/-- The two tables involved in a menu price edit: the catalog and the stored
order line items. -/
structure CatalogDb where
  menu_items : List MenuItemRow
  order_items : List OrderItemInsert
deriving DecidableEq, Repr

/-- The menu-management screen's UPDATE menu_items SET ... WHERE id = ...;
only the menu_items table is written, and no trigger links it to
order_items. -/
def updateMenuItemPrice (db : CatalogDb) (itemId : Nat) (newPrice : ℚ) :
    CatalogDb :=
  { db with menu_items := db.menu_items.map (fun mi =>
      if mi.id == itemId then { mi with price := newPrice } else mi) }

/-! ## Theorems -/

/-! ### Low-stock alerting (C1, C7, C8) -/

/-- SQL compares the INTEGER stock against the exact numeric value
min_stock_level * 0.5; over the integers that comparison is equivalent to
2 * stock ≤ min_stock_level. -/
theorem half_cond_iff (s m : Int) :
    ((s : ℚ) ≤ (m : ℚ) * 0.5) ↔ 2 * s ≤ m := by
  have h05 : (0.5 : ℚ) = 1 / 2 := by norm_num
  rw [h05, mul_one_div, le_div_iff₀ (by norm_num : (0:ℚ) < 2)]
  constructor
  · intro h
    have := (mul_comm (s:ℚ) 2) ▸ h
    exact_mod_cast this
  · intro h
    have : ((2 * s : Int) : ℚ) ≤ (m : ℚ) := by exact_mod_cast h
    calc (s : ℚ) * 2 = ((2 * s : Int) : ℚ) := by push_cast; ring
    _ ≤ (m : ℚ) := this

/-- Strict-comparison companion of half_cond_iff. -/
theorem half_cond_lt_iff (s m : Int) :
    ((m : ℚ) * 0.5 < (s : ℚ)) ↔ m < 2 * s := by
  rw [← not_le, ← not_le, half_cond_iff]

/-- After the trigger's DELETE, no alert counted as active for the item is
left among the surviving rows. -/
theorem active_filter_kept (invId : Nat) (alerts : List LowStockAlert) :
    (alerts.filter (fun a => !(isActiveFor invId a))).filter (isActiveFor invId)
      = [] := by
  induction alerts with
  | nil => rfl
  | cons a t ih =>
    by_cases h : isActiveFor invId a
    · simp [List.filter_cons, h, ih]
    · simp [List.filter_cons, h, ih]

/-- A freshly inserted alert row counts as active for its own item. -/
theorem isActiveFor_inserted (invId : Nat) (lvl : AlertLevel) :
    isActiveFor invId ⟨invId, lvl, false⟩ = true := by
  simp [isActiveFor]

/-- C1: after a stock-changing inventory update fires the trigger, the
unacknowledged alerts for that item are exactly the single alert dictated by
the spec's threshold table (so there is at most one of them, and its level is
the claimed pure function of new stock and min_stock_level). -/
theorem stock_alert_trigger_pure (old new : InventoryRow)
    (alerts : List LowStockAlert)
    (hch : old.current_stock ≠ new.current_stock)
    (h0 : 0 ≤ new.current_stock) :
    ((inventory_low_stock_check old new alerts).filter
        (isActiveFor new.id)).map (·.alert_level)
        = (specAlertLevel new.current_stock new.min_stock_level).toList ∧
    ((inventory_low_stock_check old new alerts).filter
        (isActiveFor new.id)).length ≤ 1 := by
  have hmap :
      ((inventory_low_stock_check old new alerts).filter
          (isActiveFor new.id)).map (·.alert_level)
        = (specAlertLevel new.current_stock new.min_stock_level).toList := by
    rw [inventory_low_stock_check, if_pos hch]
    rw [check_low_stock, specAlertLevel]
    by_cases hs0 : new.current_stock = 0
    · rw [if_pos hs0, if_pos hs0]
      simp [List.filter_append, active_filter_kept, isActiveFor_inserted]
    · rw [if_neg hs0, if_neg hs0]
      by_cases hsm : new.current_stock ≤ new.min_stock_level
      · rw [if_pos hsm]
        by_cases hh :
            (new.current_stock : ℚ) ≤ (new.min_stock_level : ℚ) * 0.5
        · rw [if_pos hh,
            if_pos (⟨lt_of_le_of_ne h0 (Ne.symm hs0), hh⟩ :
              0 < new.current_stock ∧
              (new.current_stock : ℚ) ≤ (new.min_stock_level : ℚ) * 0.5)]
          simp [List.filter_append, active_filter_kept, isActiveFor_inserted]
        · rw [if_neg hh,
            if_neg (fun hc => hh hc.2),
            if_pos (⟨not_le.1 hh, hsm⟩ :
              (new.min_stock_level : ℚ) * 0.5 < (new.current_stock : ℚ) ∧
              new.current_stock ≤ new.min_stock_level)]
          simp [List.filter_append, active_filter_kept, isActiveFor_inserted]
      · rw [if_neg hsm]
        have hnot2 : ¬(0 < new.current_stock ∧
            (new.current_stock : ℚ) ≤ (new.min_stock_level : ℚ) * 0.5) := by
          rintro ⟨hpos, hhalf⟩
          rw [half_cond_iff] at hhalf
          omega
        have hnot3 : ¬((new.min_stock_level : ℚ) * 0.5 <
              (new.current_stock : ℚ) ∧
            new.current_stock ≤ new.min_stock_level) :=
          fun hc => hsm hc.2
        rw [if_neg hnot2, if_neg hnot3]
        simp [active_filter_kept]
  refine ⟨hmap, ?_⟩
  have hlen := congrArg List.length hmap
  rw [List.length_map] at hlen
  rw [hlen]
  cases specAlertLevel new.current_stock new.min_stock_level <;> simp

/-- C1 witness: the spec's own scenario step, stock drops from 20 to 10 with
min_stock_level 10, yields the single unacknowledged alert of level low. -/
theorem stock_alert_trigger_pure_witness :
    ((inventory_low_stock_check ⟨7, 20, 10⟩ ⟨7, 10, 10⟩ []).filter
        (isActiveFor 7)).map (·.alert_level)
        = (specAlertLevel 10 10).toList ∧
    ((inventory_low_stock_check ⟨7, 20, 10⟩ ⟨7, 10, 10⟩ []).filter
        (isActiveFor 7)).length ≤ 1 :=
  stock_alert_trigger_pure ⟨7, 20, 10⟩ ⟨7, 10, 10⟩ []
    (by norm_num) (by norm_num)

/-- C7: a trigger run deletes only the unacknowledged alerts of the updated
item: every alert row that is acknowledged, or that belongs to another item,
survives the run. -/
theorem alerts_outside_delete_scope_preserved (old new : InventoryRow)
    (alerts : List LowStockAlert) (a : LowStockAlert)
    (ha : a ∈ alerts)
    (hkeep : a.is_acknowledged = true ∨ a.inventory_id ≠ new.id) :
    a ∈ inventory_low_stock_check old new alerts := by
  have hk : a ∈ alerts.filter (fun x => !(isActiveFor new.id x)) :=
    List.mem_filter.2 ⟨ha, by
      rcases hkeep with h | h
      · simp [isActiveFor, h]
      · simp [isActiveFor, h]⟩
  rw [inventory_low_stock_check]
  split
  · rw [check_low_stock]
    split
    · exact List.mem_append.2 (Or.inl hk)
    · split
      · exact List.mem_append.2 (Or.inl hk)
      · exact hk
  · exact ha

/-- C7 witness: an acknowledged critical alert of the updated item and an
unacknowledged alert of a different item both survive a run that replaces the
item's unacknowledged alert. -/
theorem alerts_outside_delete_scope_preserved_witness :
    (⟨3, AlertLevel.critical, true⟩ : LowStockAlert) ∈
      inventory_low_stock_check ⟨3, 5, 10⟩ ⟨3, 0, 10⟩
        [⟨3, .critical, true⟩, ⟨3, .critical, false⟩, ⟨8, .low, false⟩] ∧
    (⟨8, AlertLevel.low, false⟩ : LowStockAlert) ∈
      inventory_low_stock_check ⟨3, 5, 10⟩ ⟨3, 0, 10⟩
        [⟨3, .critical, true⟩, ⟨3, .critical, false⟩, ⟨8, .low, false⟩] :=
  ⟨alerts_outside_delete_scope_preserved ⟨3, 5, 10⟩ ⟨3, 0, 10⟩
      [⟨3, .critical, true⟩, ⟨3, .critical, false⟩, ⟨8, .low, false⟩]
      ⟨3, .critical, true⟩ (by simp) (Or.inl rfl),
   alerts_outside_delete_scope_preserved ⟨3, 5, 10⟩ ⟨3, 0, 10⟩
      [⟨3, .critical, true⟩, ⟨3, .critical, false⟩, ⟨8, .low, false⟩]
      ⟨8, .low, false⟩ (by simp) (Or.inr (by norm_num))⟩

/-- C8: an inventory update that leaves current_stock unchanged does not fire
the trigger, so the alert table is untouched. -/
theorem no_stock_change_no_trigger (old new : InventoryRow)
    (alerts : List LowStockAlert)
    (h : old.current_stock = new.current_stock) :
    inventory_low_stock_check old new alerts = alerts := by
  simp [inventory_low_stock_check, h]

/-- C8 witness: renaming fields without touching stock leaves an existing
alert list intact. -/
theorem no_stock_change_no_trigger_witness :
    inventory_low_stock_check ⟨2, 4, 10⟩ ⟨2, 4, 12⟩ [⟨2, .critical, false⟩]
      = [⟨2, .critical, false⟩] :=
  no_stock_change_no_trigger ⟨2, 4, 10⟩ ⟨2, 4, 12⟩ [⟨2, .critical, false⟩] rfl

/-! ### Status transitions (C3, C4, C5, C6) -/

/-- When the new status passes the CHECK constraint, the UPDATE succeeds and
rewrites exactly the matching rows. -/
theorem dbUpdateOrderStatus_allowed (db : Db) (oid : Nat) (s : String)
    (now : Nat) (hs : statusAllowed s = true) :
    dbUpdateOrderStatus db oid s now
      = some { db with orders := db.orders.map (updStatus oid s now) } := by
  simp [dbUpdateOrderStatus, hs]

/-- When some row matches and the new status violates the CHECK constraint,
the UPDATE errors. -/
theorem dbUpdateOrderStatus_invalid (db : Db) (oid : Nat) (s : String)
    (now : Nat) (hmatch : db.orders.any (fun o => o.id == oid) = true)
    (hs : statusAllowed s = false) :
    dbUpdateOrderStatus db oid s now = none := by
  simp [dbUpdateOrderStatus, hmatch, hs]

/-- Rows carrying the updated id end up with the new status. -/
theorem updated_status_is_new (orders : List Order) (oid : Nat) (s : String)
    (now : Nat) :
    ∀ o ∈ orders.map (updStatus oid s now), o.id = oid → o.status = s := by
  intro o ho hid
  obtain ⟨x, hx, rfl⟩ := List.mem_map.1 ho
  by_cases h : x.id = oid
  · simp [updStatus, h]
  · simp [updStatus, h] at hid

/-- Writing back the status each matching row already has keeps every row's
(id, status) pair. -/
theorem map_updStatus_proj (orders : List Order) (oid : Nat) (s : String)
    (now : Nat) (hall : ∀ o ∈ orders, o.id = oid → o.status = s) :
    (orders.map (updStatus oid s now)).map (fun o => (o.id, o.status))
      = orders.map (fun o => (o.id, o.status)) := by
  rw [List.map_map]
  apply List.map_congr_left
  intro o ho
  by_cases h : o.id = oid
  · simp [updStatus, Function.comp, h, hall o ho h]
  · simp [updStatus, Function.comp, h]

/-- A fault-free run of performOrderAction on a CHECK-passing status updates
the order rows, appends one order_actions row and one activity row, and
reports success. -/
theorem performOrderAction_noFault (db : Db) (ctx : ActionCtx) (oid : Nat)
    (s a : String) (now : Nat) (hs : statusAllowed s = true) :
    performOrderAction db ctx oid s a now ⟨false, false, false⟩
      = ({ orders := db.orders.map (updStatus oid s now),
           order_actions := db.order_actions ++
             [⟨oid, a, ctx.userId, ctx.actionAmount, ctx.actionReason,
               ctx.actionNotes⟩],
           activity_logs := db.activity_logs ++ [⟨ctx.userId, a, s⟩] },
         true) := by
  simp [performOrderAction, dbUpdateOrderStatus_allowed db oid s now hs]

/-- When the status-update step fails (injected store error, or CHECK
violation), performOrderAction leaves the store untouched and reports
failure. -/
theorem performOrderAction_updFail (db : Db) (ctx : ActionCtx) (oid : Nat)
    (s a : String) (now : Nat) (f : StoreFaults)
    (h : (if f.orderUpdateFails then none
          else dbUpdateOrderStatus db oid s now) = none) :
    performOrderAction db ctx oid s a now f = (db, false) := by
  simp only [performOrderAction, h]

/-- C3: failure semantics of the status-transition operation. If the status
update fails (injected error or constraint violation), nothing is written and
the caller sees failure. If the update succeeds but the order_actions insert
fails, the resulting store has the order's status changed, no new
order_actions row and no new activity row, and the caller sees failure. -/
theorem order_action_failure_semantics (db : Db) (ctx : ActionCtx)
    (orderId : Nat) (newStatus actionType : String) (now : Nat) :
    (∀ f : StoreFaults,
      (f.orderUpdateFails = true ∨
        dbUpdateOrderStatus db orderId newStatus now = none) →
      performOrderAction db ctx orderId newStatus actionType now f
        = (db, false)) ∧
    (∀ (f : StoreFaults) (db1 : Db),
      f.orderUpdateFails = false → f.actionInsertFails = true →
      dbUpdateOrderStatus db orderId newStatus now = some db1 →
      performOrderAction db ctx orderId newStatus actionType now f
          = (db1, false) ∧
        db1.order_actions = db.order_actions ∧
        db1.activity_logs = db.activity_logs ∧
        ∀ o ∈ db1.orders, o.id = orderId → o.status = newStatus) := by
  constructor
  · intro f hf
    apply performOrderAction_updFail
    rcases hf with hf | hf
    · simp [hf]
    · cases hu : f.orderUpdateFails <;> simp [hf]
  · intro f db1 hupd hact hsome
    have hdb1 : db1 =
        { db with orders := db.orders.map (updStatus orderId newStatus now) } := by
      by_cases hc : db.orders.any (fun o => o.id == orderId) &&
          !(statusAllowed newStatus)
      · rw [dbUpdateOrderStatus, if_pos hc] at hsome
        exact absurd hsome (by simp)
      · rw [dbUpdateOrderStatus, if_neg hc] at hsome
        exact (Option.some_injective _ hsome).symm
    refine ⟨?_, ?_, ?_, ?_⟩
    · simp only [performOrderAction, hupd, Bool.false_eq_true, if_false,
        hsome, hact, if_true]
    · rw [hdb1]
    · rw [hdb1]
    · rw [hdb1]
      exact updated_status_is_new db.orders orderId newStatus now

/-- C3 witness: on the one-order store, an injected update failure leaves the
store untouched, and an injected order_actions failure after a successful
update to cancelled leaves the cancelled order with no audit row; both report
failure. -/
theorem order_action_failure_semantics_witness :
    performOrderAction exDb exCtx 1 "cancelled" "cancel" 5 ⟨true, false, false⟩
        = (exDb, false) ∧
    performOrderAction exDb exCtx 1 "cancelled" "cancel" 5 ⟨false, true, false⟩
        = (⟨[⟨1, "cancelled", 5⟩], [], []⟩, false) := by
  have h := order_action_failure_semantics exDb exCtx 1 "cancelled" "cancel" 5
  refine ⟨h.1 ⟨true, false, false⟩ (Or.inl rfl), ?_⟩
  exact (h.2 ⟨false, true, false⟩ ⟨[⟨1, "cancelled", 5⟩], [], []⟩ rfl rfl
    (by simp [dbUpdateOrderStatus, exDb, statusAllowed, allowedStatuses,
      updStatus])).1

/-- C6: re-applying an order's current status is never guarded against. A
fault-free run targeting the status the order already holds succeeds, leaves
every order's (id, status) pair unchanged, and appends one audit row; running
it again succeeds again and leaves two identical audit rows. -/
theorem repeated_same_status_transition (db : Db) (ctx : ActionCtx)
    (oid : Nat) (s a : String) (now1 now2 : Nat)
    (hs : statusAllowed s = true)
    (hcur : ∀ o ∈ db.orders, o.id = oid → o.status = s) :
    (performOrderAction db ctx oid s a now1 ⟨false, false, false⟩).2
        = true ∧
    (performOrderAction db ctx oid s a now1 ⟨false, false, false⟩).1.orders.map
        (fun o => (o.id, o.status)) = db.orders.map (fun o => (o.id, o.status)) ∧
    (performOrderAction db ctx oid s a now1
        ⟨false, false, false⟩).1.order_actions
      = db.order_actions ++
          [⟨oid, a, ctx.userId, ctx.actionAmount, ctx.actionReason,
            ctx.actionNotes⟩] ∧
    (performOrderAction (performOrderAction db ctx oid s a now1
        ⟨false, false, false⟩).1 ctx oid s a now2 ⟨false, false, false⟩).2
        = true ∧
    (performOrderAction (performOrderAction db ctx oid s a now1
        ⟨false, false, false⟩).1 ctx oid s a now2
        ⟨false, false, false⟩).1.orders.map (fun o => (o.id, o.status))
      = db.orders.map (fun o => (o.id, o.status)) ∧
    (performOrderAction (performOrderAction db ctx oid s a now1
        ⟨false, false, false⟩).1 ctx oid s a now2
        ⟨false, false, false⟩).1.order_actions
      = db.order_actions ++
          [⟨oid, a, ctx.userId, ctx.actionAmount, ctx.actionReason,
            ctx.actionNotes⟩,
           ⟨oid, a, ctx.userId, ctx.actionAmount, ctx.actionReason,
            ctx.actionNotes⟩] := by
  rw [performOrderAction_noFault db ctx oid s a now1 hs]
  rw [performOrderAction_noFault _ ctx oid s a now2 hs]
  have hcur1 := updated_status_is_new db.orders oid s now1
  refine ⟨rfl, map_updStatus_proj db.orders oid s now1 hcur, rfl, rfl, ?_, by simp⟩
  rw [map_updStatus_proj _ oid s now2 hcur1,
    map_updStatus_proj db.orders oid s now1 hcur]

/-- C6 witness: re-completing an already completed order twice succeeds both
times and stacks two identical audit rows. -/
theorem repeated_same_status_transition_witness :
    (performOrderAction ⟨[⟨4, "completed", 0⟩], [], []⟩ exCtx 4 "completed"
        "complete" 1 ⟨false, false, false⟩).2 = true ∧
    (performOrderAction ⟨[⟨4, "completed", 0⟩], [], []⟩ exCtx 4 "completed"
        "complete" 1 ⟨false, false, false⟩).1.orders.map
        (fun o => (o.id, o.status))
      = ([⟨4, "completed", 0⟩] : List Order).map (fun o => (o.id, o.status)) ∧
    (performOrderAction ⟨[⟨4, "completed", 0⟩], [], []⟩ exCtx 4 "completed"
        "complete" 1 ⟨false, false, false⟩).1.order_actions
      = [] ++ [⟨4, "complete", 9, none, none, none⟩] ∧
    (performOrderAction (performOrderAction ⟨[⟨4, "completed", 0⟩], [], []⟩
        exCtx 4 "completed" "complete" 1 ⟨false, false, false⟩).1 exCtx 4
        "completed" "complete" 2 ⟨false, false, false⟩).2 = true ∧
    (performOrderAction (performOrderAction ⟨[⟨4, "completed", 0⟩], [], []⟩
        exCtx 4 "completed" "complete" 1 ⟨false, false, false⟩).1 exCtx 4
        "completed" "complete" 2 ⟨false, false, false⟩).1.orders.map
        (fun o => (o.id, o.status))
      = ([⟨4, "completed", 0⟩] : List Order).map (fun o => (o.id, o.status)) ∧
    (performOrderAction (performOrderAction ⟨[⟨4, "completed", 0⟩], [], []⟩
        exCtx 4 "completed" "complete" 1 ⟨false, false, false⟩).1 exCtx 4
        "completed" "complete" 2 ⟨false, false, false⟩).1.order_actions
      = [] ++ [⟨4, "complete", 9, none, none, none⟩,
               ⟨4, "complete", 9, none, none, none⟩] :=
  repeated_same_status_transition ⟨[⟨4, "completed", 0⟩], [], []⟩ exCtx 4
    "completed" "complete" 1 2
    (by simp [statusAllowed, allowedStatuses])
    (by intro o ho hid; simp at ho; rw [ho])

/-- C4: the orders CHECK constraint knows neither approved nor void, so the
Variant B approve quick action and the void path both leave the store
unchanged and report failure, whatever faults are injected. -/
theorem unsupported_status_values_rejected :
    statusAllowed "approved" = false ∧ statusAllowed "void" = false ∧
    ∀ (db : Db) (ctx : ActionCtx) (o : Order) (now : Nat) (f : StoreFaults),
      o ∈ db.orders →
      handleQuickAction db ctx o "approve" now f = some (db, false) ∧
      performVoidOrder db o.id now = (db, false) := by
  have happ : statusAllowed "approved" = false := by decide
  have hvoid : statusAllowed "void" = false := by decide
  refine ⟨happ, hvoid, ?_⟩
  intro db ctx o now f ho
  have hmatch : db.orders.any (fun x => x.id == o.id) = true :=
    List.any_eq_true.2 ⟨o, ho, by simp⟩
  constructor
  · show some (performOrderAction db ctx o.id "approved" "approve" now f)
      = some (db, false)
    congr 1
    apply performOrderAction_updFail
    cases hu : f.orderUpdateFails
    · simp [dbUpdateOrderStatus_invalid db o.id "approved" now hmatch happ]
    · simp
  · rw [performVoidOrder,
      dbUpdateOrderStatus_invalid db o.id "void" now hmatch hvoid]

/-- C4 witness: on the one-order store, approving to approved and voiding
both bounce off the CHECK constraint. -/
theorem unsupported_status_values_rejected_witness :
    handleQuickAction exDb exCtx ⟨1, "pending", 0⟩ "approve" 3
        ⟨false, false, false⟩ = some (exDb, false) ∧
    performVoidOrder exDb 1 3 = (exDb, false) := by
  have h := (unsupported_status_values_rejected.2.2 exDb exCtx
    ⟨1, "pending", 0⟩ 3 ⟨false, false, false⟩ (by simp [exDb]))
  exact h

/-- C5 counterexample: an admin-role void on a pending order does run
performVoidOrder, but the update bounces off the status CHECK constraint, so
the operation reports failure and no order ends up with status void — the
claim's "the void proceeds and the order's status becomes void" is false at
this input. -/
theorem void_status_never_set_counterexample :
    handleVoidOrder "admin" exDb 1 3 = .performed (exDb, false) ∧
    exDb.orders.map (fun o => o.status) = ["pending"] ∧
    ("pending" : String) ≠ "void" := by
  refine ⟨?_, by simp [exDb], by decide⟩
  rw [handleVoidOrder, if_pos rfl, performVoidOrder,
    dbUpdateOrderStatus_invalid exDb 1 "void" 3 (by simp [exDb]) (by decide)]

/-- C5 amended: the client-side gate behaves as claimed — a non-admin role
only gets the password dialog, a wrong or empty password is refused, and an
admin role or the hardcoded password releases performVoidOrder — but the
released update is rejected by the orders status CHECK constraint, so the
store is left unchanged and failure is reported instead of the status
becoming void. -/
theorem void_gate_amended :
    (∀ (role : String) (db : Db) (oid now : Nat), role ≠ "admin" →
      handleVoidOrder role db oid now = .dialogShown) ∧
    (∀ (pw : String) (db : Db) (oid now : Nat), pw ≠ "admin123" →
      handleAdminPasswordSubmit pw db oid now = .rejected) ∧
    (∀ (db : Db) (oid now : Nat),
      db.orders.any (fun o => o.id == oid) = true →
      handleVoidOrder "admin" db oid now = .performed (db, false) ∧
      handleAdminPasswordSubmit "admin123" db oid now
        = .performed (db, false)) := by
  have hvoid : statusAllowed "void" = false := by decide
  refine ⟨?_, ?_, ?_⟩
  · intro role db oid now h
    rw [handleVoidOrder, if_neg h]
  · intro pw db oid now h
    by_cases h0 : pw = ""
    · rw [handleAdminPasswordSubmit, if_pos h0]
    · rw [handleAdminPasswordSubmit, if_neg h0, if_neg h]
  · intro db oid now hmatch
    have hrun : performVoidOrder db oid now = (db, false) := by
      rw [performVoidOrder,
        dbUpdateOrderStatus_invalid db oid "void" now hmatch hvoid]
    constructor
    · rw [handleVoidOrder, if_pos rfl, hrun]
    · rw [handleAdminPasswordSubmit, if_neg (by decide), if_pos rfl, hrun]

/-- C5 witness: a cashier only gets the dialog, a wrong password is refused,
and the released void on the one-order store fails with the store
unchanged. -/
theorem void_gate_amended_witness :
    handleVoidOrder "cashier" exDb 1 3 = .dialogShown ∧
    handleAdminPasswordSubmit "letmein" exDb 1 3 = .rejected ∧
    handleAdminPasswordSubmit "admin123" exDb 1 3
      = .performed (exDb, false) := by
  have h := void_gate_amended
  exact ⟨h.1 "cashier" exDb 1 3 (by decide),
    h.2.1 "letmein" exDb 1 3 (by decide),
    (h.2.2 exDb 1 3 (by simp [exDb])).2⟩

/-! ### Order-number generation (C2) -/

/-- The digit rendering does not depend on the fuel once it covers the
value. -/
theorem natCharsAux_congr : ∀ (f1 f2 n : ℕ), n < f1 → n < f2 →
    natCharsAux f1 n = natCharsAux f2 n := by
  intro f1
  induction f1 with
  | zero => omega
  | succ f1 ih =>
    intro f2 n h1 h2
    cases f2 with
    | zero => omega
    | succ f2 =>
      simp only [natCharsAux]
      by_cases h : n < 10
      · simp [h]
      · rw [if_neg h, if_neg h, ih f2 (n / 10) (by omega) (by omega)]

/-- Rendering a one-digit value. -/
theorem natChars_lt10 (n : ℕ) (h : n < 10) :
    natChars n = [Nat.digitChar n] := by
  simp [natChars, natCharsAux, h]

/-- Rendering a multi-digit value peels off the final digit. -/
theorem natChars_ge10 (n : ℕ) (h : 10 ≤ n) :
    natChars n = natChars (n / 10) ++ [Nat.digitChar (n % 10)] := by
  rw [natChars, natChars]
  show natCharsAux (n + 1) n = _
  rw [natCharsAux, if_neg (by omega),
    natCharsAux_congr n (n / 10 + 1) (n / 10) (by omega) (by omega)]

/-- A value below 10 ^ k renders in at most k digits (k ≥ 1). -/
theorem natChars_length_le : ∀ (k n : ℕ), 1 ≤ k → n < 10 ^ k →
    (natChars n).length ≤ k := by
  intro k
  induction k with
  | zero => omega
  | succ k ih =>
    intro n _ h2
    by_cases h : n < 10
    · rw [natChars_lt10 n h]
      simp
    · have hk : 1 ≤ k := by
        by_contra hc
        have : k = 0 := by omega
        rw [this] at h2
        norm_num at h2
        omega
      have hdiv : n / 10 < 10 ^ k := by
        rw [Nat.div_lt_iff_lt_mul (by norm_num)]
        calc n < 10 ^ (k + 1) := h2
        _ = 10 ^ k * 10 := by ring
      rw [natChars_ge10 n (by omega)]
      rw [List.length_append]
      have := ih (n / 10) hk hdiv
      simp only [List.length_cons, List.length_nil]
      omega

/-- Appending one character multiplies the value by ten and adds the
digit. -/
theorem digitsVal_snoc (a : List Char) (c : Char) :
    digitsVal (a ++ [c]) = 10 * digitsVal a + (c.toNat - '0'.toNat) := by
  simp [digitsVal, List.foldl_append]

/-- digitChar is read back to the digit it encodes. -/
theorem digitChar_val (k : ℕ) (h : k < 10) :
    (Nat.digitChar k).toNat - '0'.toNat = k := by
  interval_cases k <;> decide

/-- The decimal rendering decodes to the value it renders. -/
theorem digitsVal_natChars (n : ℕ) : digitsVal (natChars n) = n := by
  induction n using Nat.strong_induction_on with
  | _ n ih =>
    by_cases h : n < 10
    · rw [natChars_lt10 n h]
      have : ([Nat.digitChar n] : List Char) = [] ++ [Nat.digitChar n] := rfl
      rw [this, digitsVal_snoc, digitChar_val n h]
      simp [digitsVal]
    · rw [natChars_ge10 n (by omega), digitsVal_snoc,
        ih (n / 10) (by omega), digitChar_val (n % 10) (by omega)]
      omega

/-- Leading zero padding does not change the decoded value. -/
theorem digitsVal_replicate_zero (k : ℕ) (l : List Char) :
    digitsVal (List.replicate k '0' ++ l) = digitsVal l := by
  induction k with
  | zero => simp
  | succ k ih =>
    rw [List.replicate_succ, List.cons_append]
    simp only [digitsVal, List.foldl_cons]
    have : 10 * 0 + ('0'.toNat - '0'.toNat) = 0 := by decide
    rw [this]
    exact ih

/-- LPAD always returns exactly the requested length. -/
theorem lpad_length (l : List Char) (len : ℕ) (c : Char) :
    (lpad l len c).length = len := by
  rw [lpad]
  split
  · rw [List.length_take]
    omega
  · rw [List.length_append, List.length_replicate]
    omega

/-- When the rendering fits, LPAD only adds fill on the left. -/
theorem lpad_eq_of_le (l : List Char) (len : ℕ) (c : Char)
    (h : l.length ≤ len) :
    lpad l len c = List.replicate (len - l.length) c ++ l := by
  rw [lpad]
  by_cases he : len ≤ l.length
  · have hlen : l.length = len := le_antisymm h he
    rw [if_pos he, ← hlen, List.take_length, Nat.sub_self,
      List.replicate_zero, List.nil_append]
  · rw [if_neg he]

/-- For sequence values of at most four digits, the padded field decodes back
to the value. -/
theorem digitsVal_lpad_natChars (n : ℕ) (h : n ≤ 9999) :
    digitsVal (lpad (natChars n) 4 '0') = n := by
  have hlen : (natChars n).length ≤ 4 :=
    natChars_length_le 4 n (by norm_num) (by norm_num; omega)
  rw [lpad_eq_of_le _ _ _ hlen, digitsVal_replicate_zero, digitsVal_natChars]

/-- Every character of the rendering is a decimal digit. -/
theorem natChars_digits (n : ℕ) : ∀ c ∈ natChars n, c.isDigit = true := by
  induction n using Nat.strong_induction_on with
  | _ n ih =>
    intro c hc
    by_cases h : n < 10
    · rw [natChars_lt10 n h] at hc
      simp at hc
      subst hc
      interval_cases n <;> decide
    · rw [natChars_ge10 n (by omega)] at hc
      rcases List.mem_append.1 hc with hc | hc
      · exact ih (n / 10) (by omega) c hc
      · simp at hc
        subst hc
        have hm : n % 10 < 10 := by omega
        set k := n % 10 with hk
        interval_cases k <;> decide

/-- C2 counterexample: LPAD truncates the sequence text to four characters on
the right, so sequence values 1000 and 10000 on the same day render to the
identical order number — uniqueness across all orders ever created fails once
the store's counter passes 9999. -/
theorem generate_order_number_collision :
    generate_order_number "20250101".toList 1000
        = generate_order_number "20250101".toList 10000 ∧
    (1000 : ℕ) ≠ 10000 := by
  constructor
  · rfl
  · decide

/-- C2 amended: while the store's counter stays at four digits (value at most
9999), every generated number has the claimed shape — an 8-character date
part framed by 'ORD-' and '-', then exactly four digit characters decoding to
the sequence value (hence strictly increasing over a day's successive NEXTVAL
calls, which the store never resets for a client) — and two generated numbers
coincide only for the same date and the same sequence value; beyond 9999 the
LPAD truncation defeats uniqueness. -/
theorem generate_order_number_amended (d1 d2 : List Char)
    (h1 : d1.length = 8) (h2 : d2.length = 8)
    (m n : ℕ) (hm : m ≤ 9999) (hn : n ≤ 9999) :
    (lpad (natChars m) 4 '0').length = 4 ∧
    (∀ c ∈ lpad (natChars m) 4 '0', c.isDigit = true) ∧
    digitsVal (lpad (natChars m) 4 '0') = m ∧
    (generate_order_number d1 m = generate_order_number d2 n →
      d1 = d2 ∧ m = n) := by
  refine ⟨lpad_length _ 4 '0', ?_, digitsVal_lpad_natChars m hm, ?_⟩
  · intro c hc
    rw [lpad] at hc
    by_cases hl : 4 ≤ (natChars m).length
    · rw [if_pos hl] at hc
      exact natChars_digits m c (List.take_subset _ _ hc)
    · rw [if_neg hl] at hc
      rcases List.mem_append.1 hc with hc | hc
      · rw [List.eq_of_mem_replicate hc]
        decide
      · exact natChars_digits m c hc
  · intro heq
    have hl : "ORD-".toList ++ d1 ++ "-".toList ++ lpad (natChars m) 4 '0'
        = "ORD-".toList ++ d2 ++ "-".toList ++ lpad (natChars n) 4 '0' := by
      have := congrArg String.data heq
      simpa [generate_order_number] using this
    rw [List.append_assoc, List.append_assoc, List.append_assoc,
      List.append_assoc] at hl
    have hl2 := (List.append_inj hl rfl).2
    have hl3 := List.append_inj hl2 (h1.trans h2.symm)
    refine ⟨hl3.1, ?_⟩
    have hl4 := (List.append_inj hl3.2 rfl).2
    have := congrArg digitsVal hl4
    rw [digitsVal_lpad_natChars m hm, digitsVal_lpad_natChars n hn] at this
    exact this

/-- C2 witness: two four-digit sequence values on one day give well-formed,
distinct numbers whose fields decode back to the values. -/
theorem generate_order_number_amended_witness :
    (lpad (natChars 123) 4 '0').length = 4 ∧
    (∀ c ∈ lpad (natChars 123) 4 '0', c.isDigit = true) ∧
    digitsVal (lpad (natChars 123) 4 '0') = 123 ∧
    (generate_order_number "20250101".toList 123
        = generate_order_number "20250101".toList 124 →
      "20250101".toList = "20250101".toList ∧ 123 = 124) :=
  generate_order_number_amended "20250101".toList "20250101".toList
    rfl rfl 123 124 (by norm_num) (by norm_num)

/-! ### Checkout totals and line items (C9, C10) -/

/-- C9 counterexample: the public CustomerMenu checkout stores the scenario
order with total_amount 250 and no tax at all, refuting the claim that every
checkout flow stores 275 or 280. -/
theorem customer_menu_no_tax_counterexample :
    (CustomerMenu.submitOrderRow scenarioCart).total_amount = 250 ∧
    ¬((CustomerMenu.submitOrderRow scenarioCart).total_amount = 275 ∨
      (CustomerMenu.submitOrderRow scenarioCart).total_amount = 280) := by
  norm_num [CustomerMenu.submitOrderRow, CustomerMenu.calculateTotal,
    scenarioCart]

/-- C9 amended: on the scenario cart the POS checkout stores total 275 with
tax 25 (10%), the part_002 customer checkout stores total 280 with tax 30
(12%), and the public CustomerMenu checkout applies no tax, storing total 250
with tax_amount 0. -/
theorem checkout_totals_amended :
    (POSSystem.processOrderRow scenarioCart).total_amount = 275 ∧
    (POSSystem.processOrderRow scenarioCart).tax_amount = 25 ∧
    (CustomerOrder.submitOrderRow scenarioCart).total_amount = 280 ∧
    (CustomerOrder.submitOrderRow scenarioCart).tax_amount = 30 ∧
    (CustomerMenu.submitOrderRow scenarioCart).total_amount = 250 ∧
    (CustomerMenu.submitOrderRow scenarioCart).tax_amount = 0 := by
  norm_num [POSSystem.processOrderRow, POSSystem.calculateTotal,
    POSSystem.calculateSubtotal, POSSystem.calculateTax,
    CustomerOrder.submitOrderRow, CustomerOrder.calculateTotal,
    CustomerOrder.calculateTax,
    CustomerMenu.submitOrderRow, CustomerMenu.calculateTotal, scenarioCart]

/-- C10: every line item any of the three checkout flows inserts carries
total_price = quantity × unit_price at insertion, and a later menu price
edit rewrites only menu_items, leaving every stored order_items row — hence
every stored total_price — untouched. -/
theorem line_item_total_price (orderId : Nat) (cart : List CartItem) :
    (∀ it ∈ POSSystem.processOrderItems orderId cart,
      it.total_price = (it.quantity : ℚ) * it.unit_price) ∧
    (∀ it ∈ CustomerMenu.submitOrderItems orderId cart,
      it.total_price = (it.quantity : ℚ) * it.unit_price) ∧
    (∀ it ∈ CustomerOrder.submitOrderItems orderId cart,
      it.total_price = (it.quantity : ℚ) * it.unit_price) ∧
    (∀ (db : CatalogDb) (itemId : Nat) (newPrice : ℚ),
      (updateMenuItemPrice db itemId newPrice).order_items
        = db.order_items) := by
  refine ⟨?_, ?_, ?_, fun db itemId newPrice => rfl⟩ <;>
  · intro it hit
    obtain ⟨x, _, rfl⟩ := List.mem_map.1 hit
    exact mul_comm x.price (x.quantity : ℚ)

/-- C10 witness: the first scenario line item is inserted by the POS flow
with total_price 200 = 2 × 100, and a price edit leaves stored line items in
place. -/
theorem line_item_total_price_witness :
    ((⟨5, 11, 2, 100, 200, none⟩ : OrderItemInsert).total_price
        = ((2 : ℕ) : ℚ) * 100) ∧
    (updateMenuItemPrice ⟨[⟨11, 100⟩], [⟨5, 11, 2, 100, 200, none⟩]⟩ 11
        999).order_items = [⟨5, 11, 2, 100, 200, none⟩] := by
  have h := line_item_total_price 5 scenarioCart
  constructor
  · have hm : (⟨5, 11, 2, 100, 200, none⟩ : OrderItemInsert) ∈
        POSSystem.processOrderItems 5 scenarioCart := by
      norm_num [POSSystem.processOrderItems, scenarioCart]
    exact h.1 ⟨5, 11, 2, 100, 200, none⟩ hm
  · exact h.2.2.2 ⟨[⟨11, 100⟩], [⟨5, 11, 2, 100, 200, none⟩]⟩ 11 999

end PosPal
